import Mathlib

/-!
Verification development for "The Quiet Library" escape-room game.

The whole simulation core lives in one React/Three.js source file.  This
file gives a shallow embedding of that core:

* the interaction / progression state machine (`handleInteraction`,
  `startGame`, `endGameState`, the per-tick presence update `tickPresence`
  inside `gameLoop`, and the game-over check of the `useEffect` hook,
  here `lossCheck`), modelled over `ℚ` (JS numbers modelled as exact
  rationals) and fully executable;
* the movement-and-collision solver (`PhysicsManager.updateMovement` /
  `checkCollisions`), modelled generically over a linear ordered field so
  that the axis-resolution core is executable at `ℚ`, while the full
  pipeline (which normalizes the velocity with a square root and rotates
  it by the player yaw) is stated over `ℝ`;
* the tension-to-audio mapping (`AudioController.updateTension`);
* the audio method table of `AudioController`, used to model the dynamic
  method lookup `audioControllerRef.current.stop()` performed by
  `endGame` (the class defines no `stop` method, so that lookup raises a
  TypeError in JS; we model it with `Except`).

React's functional `setGameState(prev => ...)` updates inside one event
handler are modelled as direct sequential state updates, which is the
single-threaded semantics the handlers rely on.  The `jumpscarePlayed`
flag is read by `handleInteraction` from its `useCallback` closure; all
results below about the scare one-shot go through the `examined` latch
(stored in the mutable `interactionData` ref, never stale), so they are
insensitive to the staleness of that closure.
-/

namespace QuietLibrary

/-! ### GAME_CONFIG (source lines 6-16)

PLAYER_HEIGHT = 1.6, MOVE_SPEED = 4, COLLISION_RADIUS = 0.4,
PRESENCE_DECAY = 0.5, PRESENCE_MOVE_COST = 0.005,
PRESENCE_INTERACT_COST = 3, MAX_PRESENCE = 100, WORLD_SIZE = 12 × 5 × 12.
The numeric literals are used directly in the definitions below. -/

def MAX_PRESENCE : ℚ := 100

def PRESENCE_DECAY : ℚ := 0.5

def PRESENCE_MOVE_COST : ℚ := 0.005

def PRESENCE_INTERACT_COST : ℚ := 3

/-! ### World model and movement solver

`PhysicsManager` (source lines 229-282).  Three.js `Box3` boxes are
min/max corner pairs; `setFromObject` yields the world axis-aligned
bounding box of a mesh.  The solver definitions are generic over a
linear ordered field: the axis-separated resolution core is executable
at `ℚ`, and the full movement pipeline (whose velocity normalisation
takes a square root and whose yaw rotation takes a sine and cosine) is
instantiated at `ℝ`. -/

structure Box3 (α : Type) where
  minX : α
  maxX : α
  minY : α
  maxY : α
  minZ : α
  maxZ : α

/-- `Box3.intersectsBox` of Three.js: the boxes are separated iff they are
strictly beyond each other on some axis (touching counts as
intersecting). -/
def intersectsBox {α : Type} [LinearOrderedField α] (self box : Box3 α) : Bool :=
  !(decide (box.maxX < self.minX) || decide (box.minX > self.maxX) ||
    decide (box.maxY < self.minY) || decide (box.minY > self.maxY) ||
    decide (box.maxZ < self.minZ) || decide (box.minZ > self.maxZ))

/-- The player bounding box of `checkCollisions` (source lines 270-272):
`setFromCenterAndSize` with center `(x, PLAYER_HEIGHT, z)` and size
`(2 * COLLISION_RADIUS, 2 * PLAYER_HEIGHT, 2 * COLLISION_RADIUS)`,
i.e. center ± half the size on each axis. -/
def playerBox {α : Type} [LinearOrderedField α] (x z : α) : Box3 α where
  minX := x - 0.8 / 2
  maxX := x + 0.8 / 2
  minY := 1.6 - 3.2 / 2
  maxY := 1.6 + 3.2 / 2
  minZ := z - 0.8 / 2
  maxZ := z + 0.8 / 2

/-- `PhysicsManager.checkCollisions(position)` (source lines 269-281):
true iff the player box at the tentative horizontal position intersects
any registered collision box. -/
def checkCollisions {α : Type} [LinearOrderedField α] (x z : α) (objs : List (Box3 α)) : Bool :=
  objs.any fun b => intersectsBox (playerBox x z) b

/-- The axis-separated resolution core of `updateMovement` (source lines
251-263): tentatively apply the X displacement and revert it if the
resulting position collides, then do the same for Z from the position
the X phase produced. -/
def resolveMove {α : Type} [LinearOrderedField α] (px pz dx dz : α) (objs : List (Box3 α)) :
    α × α :=
  let x1 := if checkCollisions (px + dx) pz objs then px else px + dx
  let z1 := if checkCollisions x1 (pz + dz) objs then pz else pz + dz
  (x1, z1)

/-- The held movement keys (`keyMapRef`). -/
structure KeyMap where
  w : Bool
  a : Bool
  s : Bool
  d : Bool
deriving DecidableEq

/-- The raw velocity accumulation of `updateMovement` (source lines
242-245): each held key adds ±`speed` on its axis. -/
def keyVelocity {α : Type} [LinearOrderedField α] (k : KeyMap) (speed : α) : α × α :=
  ((if k.a then -speed else 0) + (if k.d then speed else 0),
   (if k.w then -speed else 0) + (if k.s then speed else 0))

/-- `isMoving` is set whenever at least one direction key is held. -/
def isMoving (k : KeyMap) : Bool :=
  k.w || k.s || k.a || k.d

/-- `Vector3.normalize().multiplyScalar(speed)` on `(vx, 0, vz)`:
Three.js normalises by `length() || 1`, so the zero vector stays zero. -/
noncomputable def normalizeScale (vx vz speed : ℝ) : ℝ × ℝ :=
  let len := Real.sqrt (vx ^ 2 + vz ^ 2)
  let l := if len = 0 then 1 else len
  (vx / l * speed, vz / l * speed)

/-- `applyEuler(player.rotation)`: the player object only ever rotates
about Y (look input mutates `player.rotation.y`; pitch lives on the
camera), so this is the Three.js Y-rotation matrix applied to the
horizontal displacement. -/
noncomputable def applyYaw (yaw dx dz : ℝ) : ℝ × ℝ :=
  (dx * Real.cos yaw + dz * Real.sin yaw, -dx * Real.sin yaw + dz * Real.cos yaw)

/-- `PhysicsManager.updateMovement(keyMap, delta)` (source lines 237-267):
returns the resolved horizontal position together with the `moved` flag
the presence model consumes.  `speed = MOVE_SPEED * delta = 4 * delta`. -/
noncomputable def updateMovement (px pz yaw : ℝ) (k : KeyMap) (delta : ℝ)
    (objs : List (Box3 ℝ)) : (ℝ × ℝ) × Bool :=
  let speed := 4 * delta
  if isMoving k then
    let v := keyVelocity k speed
    let n := normalizeScale v.1 v.2 speed
    let dir := applyYaw yaw n.1 n.2
    (resolveMove px pz dir.1 dir.2 objs, true)
  else ((px, pz), false)

/-- The collision boxes `createScene` registers (source lines 158-175),
in registration order: floor, back/left/right walls, desk, bookshelf,
control-panel pedestal.  Each entry is the world axis-aligned bounding
box `Box3.setFromObject` computes for that mesh from its geometry,
position and rotation (the side walls are quarter-turned about Y, which
swaps their X and Z extents; the floor plane is quarter-turned about X
into the XZ plane, a degenerate box at `y = 0`).  The door and the five
highlight meshes are interactable, not collision objects.  (JS note: the
calls that pass `null` for the rotation parameter would in fact throw
before Three.js applies a rotation; the boxes below are the extents for
the zero rotation those calls denote, which is also what every claim
about this world assumes.) -/
def worldBoxes (α : Type) [LinearOrderedField α] : List (Box3 α) :=
  [⟨-6, 6, 0, 0, -6, 6⟩,
   ⟨-6, 6, 0, 5, -6.05, -5.95⟩,
   ⟨-6.05, -5.95, 0, 5, -6, 6⟩,
   ⟨5.95, 6.05, 0, 5, -6, 6⟩,
   ⟨2, 4, 0, 1, 2.5, 3.5⟩,
   ⟨-5, -4, 0, 3, -2, 2⟩,
   ⟨3.2, 4.8, 0, 1.5, -4.8, -3.2⟩]

/-! ### Interactable objects and their interaction records

`interactionData` (source lines 502-508) maps the five interactable mesh
names to their rule records.  Fields absent in the JS object literal
(`hasKey` on the door, `scareTrigger` on the door, `usedMessage` on most)
are `undefined`, hence falsy: we model them as `false` / `none`. -/

inductive ObjName where
  | desk
  | bookshelf
  | door
  | controlPanel
  | distortion
deriving DecidableEq, Repr

structure InteractionRec where
  hasKey : Bool
  message : String
  usedMessage : Option String
  isExit : Bool
  scareTrigger : Bool
deriving DecidableEq, Repr

def interactionData : ObjName → InteractionRec
  | .desk =>
      ⟨true, "Key Card (1/3) found. A faint whisper echoes.", none, false, false⟩
  | .bookshelf =>
      ⟨true, "Magnetic Key (2/3) found. Silence returns... briefly.", none, false, false⟩
  | .door =>
      ⟨false, "The emergency exit needs 3 keys.", none, true, false⟩
  | .controlPanel =>
      ⟨true, "Access Token (3/3) acquired. The lock system is ready.", none, false, false⟩
  | .distortion =>
      ⟨false, "A sudden, blinding static! THE PRESENCE IS CLOSER!",
       some "It\x27s just a faint residue now.", false, true⟩

/-! ### Game state

The React `gameState` of `App` (source lines 510-521) plus the two pieces
of mutable non-React state the rules touch: the `examined` latches living
in the `interactionData` ref and the mesh visibility flag that the scare
branch clears.  `jumpscarePlayed` is absent from the initial `useState`
object (hence `undefined`, falsy): we model it as `false`. -/

structure GState where
  isRunning : Bool
  keysFound : ℕ
  presenceLevel : ℚ
  jumpscarePlayed : Bool
  examined : ObjName → Bool
  visible : ObjName → Bool
  message : String
  messageColor : String
  modalOpen : Bool
  modalTitle : String
  modalText : String

def initGameState : GState where
  isRunning := false
  keysFound := 0
  presenceLevel := 0
  jumpscarePlayed := false
  examined := fun _ => false
  visible := fun _ => true
  message := ""
  messageColor := "text-red-400"
  modalOpen := true
  modalTitle := "THE SILENT VAULT"
  modalText := "You are trapped. Find the three security keys to escape before the entity\x27s presence consumes you. Movement and interaction increase the risk."

/-- `showMessage(text, color)` (source lines 524-530); the expiry timeout
only clears the text later and is not part of any claim. -/
def showMessage (text color : String) (s : GState) : GState :=
  { s with message := text, messageColor := color }

/-- The state update performed by `endGame(win)` (source lines 620-632)
through its `setGameState` call.  The subsequent
`audioControllerRef.current.stop()` call raises a TypeError (the class
has no `stop` method); the full fallible operation is `endGame` below. -/
def endGameState (win : Bool) (s : GState) : GState :=
  { s with
    isRunning := false
    modalOpen := true
    modalTitle := if win then "ACCESS GRANTED" else "SEALED IN"
    modalText :=
      if win then
        "All keys inserted. The final lock clicks open. You survived the vault."
      else
        "The Presence consumed you. The vault door slams shut. Game Over." }

/-- `handleInteraction(targetMesh)` (source lines 533-595).  The target is
the mesh name resolved by the raycaster; every interactable mesh name has
a record in `interactionData`, so the `if (!objectData) return` branch of
the source is unreachable here. -/
def handleInteraction (target : Option ObjName) (s : GState) : GState :=
  if s.isRunning = false then s
  else
    match target with
    | none =>
        -- missed interaction: message then `presenceLevel + 1`
        let s1 := showMessage "You touch the air. Nothing happens." "text-gray-500" s
        { s1 with presenceLevel := s1.presenceLevel + 1 }
    | some o =>
        let d := interactionData o
        if d.isExit then
          -- 1. exit door: win iff `keysFound === 3`
          if s.keysFound = 3 then endGameState true s
          else
            let s1 := showMessage d.message "text-red-400" s
            { s1 with presenceLevel := s1.presenceLevel + PRESENCE_INTERACT_COST }
        else if s.examined o then
          -- 2. already examined: repeat message, `presenceLevel + 1`
          let s1 := showMessage (d.usedMessage.getD "You\x27ve already searched here.")
            "text-red-400" s
          { s1 with presenceLevel := s1.presenceLevel + 1 }
        else
          -- mark as examined (mutable record in the `interactionData` ref)
          let s2 := { s with examined := fun x => if x = o then true else s.examined x }
          -- 3. key found logic
          let s3 :=
            if d.hasKey then
              { showMessage d.message "text-yellow-300" s2 with keysFound := s2.keysFound + 1 }
            else showMessage d.message "text-red-400" s2
          -- 4. scare trigger logic (`playScare` is an external audio call;
          -- the mesh is hidden and the penalty applied exactly here)
          if d.scareTrigger && !s.jumpscarePlayed then
            let s4 := { s3 with
              visible := fun x => if x = o then false else s3.visible x
              presenceLevel := s3.presenceLevel + 30
              jumpscarePlayed := true }
            showMessage "A cold terror grips you!" "text-red-500" s4
          else { s3 with presenceLevel := s3.presenceLevel + PRESENCE_INTERACT_COST }

/-- The presence arithmetic of one `gameLoop` tick (source lines 397-417):
decay clamped at 0, then the flat movement cost when `moved`, then the
cap at `MAX_PRESENCE` taken when the game-over threshold is reached. -/
def tickPresence (p : ℚ) (delta : ℚ) (moved : Bool) : ℚ :=
  let n1 := max 0 (p - PRESENCE_DECAY * delta)
  let n2 := if moved then n1 + PRESENCE_MOVE_COST else n1
  if n2 ≥ MAX_PRESENCE then MAX_PRESENCE else n2

/-- One simulation tick of `gameLoop` as far as game state is concerned:
when not running the loop only renders (source line 382). -/
def gameTick (delta : ℚ) (moved : Bool) (s : GState) : GState :=
  if s.isRunning = false then s
  else { s with presenceLevel := tickPresence s.presenceLevel delta moved }

/-- `startGame` (source lines 598-618): blocked until auth is ready;
otherwise clears every `examined` latch of the `interactionData` ref,
resets the progression fields and opens the session.  Mesh visibility is
restored by the `sceneManager.reset()` call of the `isRunning` effect
(source lines 457-462). -/
def startGame (isAuthReady : Bool) (s : GState) : GState :=
  if isAuthReady = false then
    showMessage "Initializing authentication..." "text-gray-500" s
  else
    let s1 := { s with
      isRunning := true
      keysFound := 0
      presenceLevel := 0
      jumpscarePlayed := false
      modalOpen := false
      examined := fun _ => false
      visible := fun _ => true }
    showMessage "The vault is open. Find the three keys." "text-yellow-400" s1

/-- The game-over `useEffect` (source lines 635-639): it fires after every
committed state change, ending the session in a loss once the presence
level reaches `MAX_PRESENCE` while running. -/
def lossCheck (s : GState) : GState :=
  if s.isRunning = true ∧ s.presenceLevel ≥ MAX_PRESENCE then endGameState false s else s

/-! ### Operation traces -/

inductive GOp where
  | tick (delta : ℚ) (moved : Bool)
  | interact (target : Option ObjName)
  | start (isAuthReady : Bool)
deriving DecidableEq

def applyOp (s : GState) : GOp → GState
  | .tick delta moved => gameTick delta moved s
  | .interact target => handleInteraction target s
  | .start isAuthReady => startGame isAuthReady s

/-- One externally observable step: the operation itself followed by the
game-over effect, which reacts to the committed state. -/
def step (s : GState) (op : GOp) : GState :=
  lossCheck (applyOp s op)

def runOps (s : GState) (ops : List GOp) : GState :=
  ops.foldl step s

def Reachable (s : GState) : Prop :=
  ∃ ops : List GOp, runOps initGameState ops = s

/-- The condition under which one `interact` dispatch executes the scare
branch of `handleInteraction` (penalty + mesh hidden + `playScare` cue):
running, a non-exit target whose record has `scareTrigger`, not yet
examined, `jumpscarePlayed` still clear. -/
def scareFires (s : GState) : Option ObjName → Bool
  | some o =>
      s.isRunning && !(interactionData o).isExit && !(s.examined o) &&
        (interactionData o).scareTrigger && !s.jumpscarePlayed
  | none => false

/-- Number of scare-branch executions along a trace of operations. -/
def countScares (s : GState) : List GOp → ℕ
  | [] => 0
  | op :: ops =>
      (match op with
       | .interact t => if scareFires s t then 1 else 0
       | _ => 0) + countScares (step s op) ops

/-- Invariant carried through every step: the presence level is never
negative, stays below `MAX_PRESENCE + 30` (the largest single interaction
cost is the scare penalty 30), and is strictly below `MAX_PRESENCE`
whenever the session is still running (the game-over check has fired
otherwise). -/
def PresenceInv (s : GState) : Prop :=
  0 ≤ s.presenceLevel ∧ s.presenceLevel < 130 ∧ (s.isRunning = true → s.presenceLevel < 100)

/-- The per-tick presence update exactly as the spec words it:
`clamp(level - decayRate*deltaTime + (moved ? moveCost : 0), 0, MAX)`.
Stated from the spec, for comparison against the source's
`tickPresence`. -/
def specTickClamp (p delta : ℚ) (moved : Bool) : ℚ :=
  min MAX_PRESENCE
    (max 0 (p - PRESENCE_DECAY * delta + (if moved then PRESENCE_MOVE_COST else 0)))

/-! ### Audio -/

/-- `AudioController.updateTension(normalizedPresence)` (source lines
314-325): the three continuous audio parameters as pure functions of the
normalized presence (ambiance volume, pulse frequency, pulse volume). -/
def updateTension (n : ℚ) : ℚ × ℚ × ℚ :=
  (-30 + 10 * n, 1 + n * 4, -20 + 15 * n)

/-- The methods the `AudioController` class defines (source lines
286-341): `init`, `updateTension`, `playScare`, `reset`, `toggleMute`. -/
def audioMethods : List String :=
  ["init", "updateTension", "playScare", "reset", "toggleMute"]

/-- Dynamic method dispatch on the audio controller object: calling a
name the class does not define raises a TypeError in JS. -/
def callAudioMethod (m : String) : Except String Unit :=
  if m ∈ audioMethods then .ok ()
  else .error ("TypeError: audioControllerRef.current." ++ m ++ " is not a function")

/-- The full `endGame(win)` (source lines 620-632): the `setGameState`
update, then `audioControllerRef.current.stop()`, then (on a loss)
`playScare()`.  The result is the final state or the raised error. -/
def endGame (win : Bool) (s : GState) : Except String GState := do
  let s1 := endGameState win s
  let _ ← callAudioMethod "stop"
  if win = false then
    let _ ← callAudioMethod "playScare"
  pure s1

/-! ## Helper lemmas -/

lemma tickPresence_nonneg (p delta : ℚ) (moved : Bool) : 0 ≤ tickPresence p delta moved := by
  have hm := le_max_left 0 (p - PRESENCE_DECAY * delta)
  simp only [tickPresence, PRESENCE_MOVE_COST, MAX_PRESENCE]
  split_ifs <;> linarith

lemma tickPresence_le (p delta : ℚ) (moved : Bool) : tickPresence p delta moved ≤ MAX_PRESENCE := by
  simp only [tickPresence, PRESENCE_MOVE_COST, MAX_PRESENCE]
  split_ifs <;> linarith

lemma lossCheck_inv (s : GState) (h0 : 0 ≤ s.presenceLevel) (h1 : s.presenceLevel < 130) :
    PresenceInv (lossCheck s) := by
  unfold lossCheck PresenceInv
  split
  · simpa [endGameState] using ⟨h0, h1⟩
  · rename_i h
    push_neg at h
    simp only [MAX_PRESENCE] at h
    exact ⟨h0, h1, fun hr => by have := h hr; linarith⟩

lemma handleInteraction_inv (s : GState) (t : Option ObjName) (h : PresenceInv s) :
    0 ≤ (handleInteraction t s).presenceLevel ∧ (handleInteraction t s).presenceLevel < 130 := by
  obtain ⟨h0, h1, h2⟩ := h
  unfold handleInteraction
  split
  · exact ⟨h0, h1⟩
  · rename_i hrun
    rw [Bool.not_eq_false] at hrun
    have hlt : s.presenceLevel < 100 := h2 hrun
    cases t with
    | none =>
      simp [showMessage]
      constructor <;> linarith
    | some o =>
      simp only [showMessage, PRESENCE_INTERACT_COST]
      split_ifs <;> simp [endGameState] <;> constructor <;> linarith

lemma gameTick_inv (delta : ℚ) (moved : Bool) (s : GState) (h : PresenceInv s) :
    0 ≤ (gameTick delta moved s).presenceLevel ∧ (gameTick delta moved s).presenceLevel < 130 := by
  obtain ⟨h0, h1, _⟩ := h
  unfold gameTick
  split
  · exact ⟨h0, h1⟩
  · have ha := tickPresence_nonneg s.presenceLevel delta moved
    have hb := tickPresence_le s.presenceLevel delta moved
    simp only [MAX_PRESENCE] at hb
    exact ⟨ha, by simpa using lt_of_le_of_lt hb (by norm_num)⟩

lemma startGame_inv (b : Bool) (s : GState) (h : PresenceInv s) :
    0 ≤ (startGame b s).presenceLevel ∧ (startGame b s).presenceLevel < 130 := by
  obtain ⟨h0, h1, _⟩ := h
  unfold startGame
  split
  · simp only [showMessage]
    exact ⟨h0, h1⟩
  · simp [showMessage]

lemma step_inv (s : GState) (op : GOp) (h : PresenceInv s) : PresenceInv (step s op) := by
  unfold step
  cases op with
  | tick delta moved =>
    obtain ⟨a, b⟩ := gameTick_inv delta moved s h
    exact lossCheck_inv _ a b
  | interact t =>
    obtain ⟨a, b⟩ := handleInteraction_inv s t h
    exact lossCheck_inv _ a b
  | start b =>
    obtain ⟨a, b⟩ := startGame_inv b s h
    exact lossCheck_inv _ a b

lemma runOps_inv (ops : List GOp) (s : GState) (h : PresenceInv s) :
    PresenceInv (runOps s ops) := by
  induction ops generalizing s with
  | nil => exact h
  | cons op ops ih => exact ih (step s op) (step_inv s op h)

lemma jumpscare_mono (s : GState) (op : GOp) (hop : ∀ b : Bool, op ≠ GOp.start b)
    (h : s.jumpscarePlayed = true) : (step s op).jumpscarePlayed = true := by
  cases op with
  | tick delta moved =>
    simp only [step, applyOp, gameTick, lossCheck, endGameState]
    split_ifs <;> simp [h]
  | interact t =>
    have key : (handleInteraction t s).jumpscarePlayed = true := by
      cases t with
      | none =>
        simp [handleInteraction, showMessage]
        split_ifs <;> simp [h]
      | some o2 =>
        simp only [handleInteraction, showMessage]
        split_ifs <;> simp [endGameState, h]
    simp only [step, applyOp, lossCheck, endGameState]
    split_ifs <;> simp [key]
  | start b => exact absurd rfl (hop b)

lemma countScares_of_played (s : GState) (ops : List GOp)
    (hops : ∀ op ∈ ops, ∀ b : Bool, op ≠ GOp.start b) (h : s.jumpscarePlayed = true) :
    countScares s ops = 0 := by
  induction ops generalizing s with
  | nil => rfl
  | cons op ops ih =>
    have h2 : (step s op).jumpscarePlayed = true :=
      jumpscare_mono s op (hops op (List.mem_cons_self op ops)) h
    have ihx := ih (step s op) (fun o ho => hops o (List.mem_cons_of_mem op ho)) h2
    cases op with
    | tick delta moved => simpa [countScares] using ihx
    | interact t =>
      have hf : scareFires s t = false := by
        cases t with
        | none => rfl
        | some o2 => simp [scareFires, h]
      simpa [countScares, hf] using ihx
    | start b => exact absurd rfl (hops _ (List.mem_cons_self _ _) b)

lemma scareFires_step (s : GState) (t : Option ObjName) (h : scareFires s t = true) :
    (step s (GOp.interact t)).jumpscarePlayed = true := by
  cases t with
  | none => simp [scareFires] at h
  | some o =>
    simp only [scareFires, Bool.and_eq_true, Bool.not_eq_true'] at h
    obtain ⟨⟨⟨⟨hrun, hexit⟩, hexam⟩, hsc⟩, hjs⟩ := h
    have key : (handleInteraction (some o) s).jumpscarePlayed = true := by
      simp [handleInteraction, hrun, hexit, hexam, hsc, hjs, showMessage]
    simp only [step, applyOp, lossCheck, endGameState]
    split_ifs <;> simp [key]

lemma applyYaw_sq (yaw dx dz : ℝ) :
    (applyYaw yaw dx dz).1 ^ 2 + (applyYaw yaw dx dz).2 ^ 2 = dx ^ 2 + dz ^ 2 := by
  simp only [applyYaw]
  linear_combination (dx ^ 2 + dz ^ 2) * Real.sin_sq_add_cos_sq yaw

lemma normalizeScale_sq (vx vz s : ℝ) :
    (normalizeScale vx vz s).1 ^ 2 + (normalizeScale vx vz s).2 ^ 2 ≤ s ^ 2 := by
  simp only [normalizeScale]
  split_ifs with h
  · have h0 : vx ^ 2 + vz ^ 2 ≤ 0 := Real.sqrt_eq_zero'.mp h
    have hvx : vx = 0 := by nlinarith [sq_nonneg vx, sq_nonneg vz]
    have hvz : vz = 0 := by nlinarith [sq_nonneg vx, sq_nonneg vz]
    simp [hvx, hvz]
    positivity
  · have hsq : Real.sqrt (vx ^ 2 + vz ^ 2) ^ 2 = vx ^ 2 + vz ^ 2 :=
      Real.sq_sqrt (by positivity)
    have hL2 : Real.sqrt (vx ^ 2 + vz ^ 2) ^ 2 ≠ 0 := pow_ne_zero 2 h
    have key : (vx / Real.sqrt (vx ^ 2 + vz ^ 2) * s) ^ 2 +
        (vz / Real.sqrt (vx ^ 2 + vz ^ 2) * s) ^ 2 = s ^ 2 := by
      calc (vx / Real.sqrt (vx ^ 2 + vz ^ 2) * s) ^ 2 +
          (vz / Real.sqrt (vx ^ 2 + vz ^ 2) * s) ^ 2
          = (vx ^ 2 + vz ^ 2) / Real.sqrt (vx ^ 2 + vz ^ 2) ^ 2 * s ^ 2 := by ring
        _ = Real.sqrt (vx ^ 2 + vz ^ 2) ^ 2 / Real.sqrt (vx ^ 2 + vz ^ 2) ^ 2 * s ^ 2 := by
            rw [hsq]
        _ = s ^ 2 := by rw [div_self hL2, one_mul]
    exact key.le

lemma abs_le_of_sq_add_sq_le (a b s : ℝ) (h : a ^ 2 + b ^ 2 ≤ s ^ 2) (hs : 0 ≤ s) :
    |a| ≤ s ∧ |b| ≤ s := by
  constructor
  · exact abs_le.mpr (abs_le_of_sq_le_sq' (by nlinarith [sq_nonneg b]) hs)
  · exact abs_le.mpr (abs_le_of_sq_le_sq' (by nlinarith [sq_nonneg a]) hs)

lemma dir_abs_le (yaw vx vz s : ℝ) (hs : 0 ≤ s) :
    |(applyYaw yaw (normalizeScale vx vz s).1 (normalizeScale vx vz s).2).1| ≤ s ∧
    |(applyYaw yaw (normalizeScale vx vz s).1 (normalizeScale vx vz s).2).2| ≤ s := by
  have h1 := applyYaw_sq yaw (normalizeScale vx vz s).1 (normalizeScale vx vz s).2
  have h2 := normalizeScale_sq vx vz s
  exact abs_le_of_sq_add_sq_le _ _ _ (h1.le.trans h2) hs

/-- Any horizontal position whose footprint overlaps the 12 × 12 floor
extent collides: the floor plane is registered as a collision object and
the player box reaches down to `y = 0`, the floor's degenerate box. -/
lemma floor_collides (x z : ℝ) (hx : |x| ≤ 6.4) (hz : |z| ≤ 6.4) :
    checkCollisions x z (worldBoxes ℝ) = true := by
  obtain ⟨hx1, hx2⟩ := abs_le.mp hx
  obtain ⟨hz1, hz2⟩ := abs_le.mp hz
  have hfloor : intersectsBox (playerBox x z) ((⟨-6, 6, 0, 0, -6, 6⟩ : Box3 ℝ)) = true := by
    simp only [intersectsBox, playerBox, Bool.not_eq_true', Bool.or_eq_false_iff,
      decide_eq_false_iff_not, not_lt]
    refine ⟨⟨⟨⟨⟨by linarith, by linarith⟩, by linarith⟩, by linarith⟩, by linarith⟩, by linarith⟩
  simp only [checkCollisions, worldBoxes, List.any_cons, Bool.or_eq_true]
  exact Or.inl hfloor

lemma no_collision_beyond_floor : checkCollisions (0:ℝ) 45 (worldBoxes ℝ) = false := by
  simp only [checkCollisions, worldBoxes, List.any_cons, List.any_nil, Bool.or_eq_false_iff,
    intersectsBox, playerBox, Bool.not_eq_false', Bool.or_eq_true, decide_eq_true_eq]
  norm_num

lemma normalizeScale_forward : normalizeScale 0 40 40 = ((0:ℝ), 40) := by
  have hlen : Real.sqrt ((0:ℝ) ^ 2 + 40 ^ 2) = 40 := by
    rw [show ((0:ℝ) ^ 2 + 40 ^ 2) = 40 ^ 2 by norm_num]
    exact Real.sqrt_sq (by norm_num)
  simp only [normalizeScale, hlen]
  norm_num

/-! ## Claim theorems -/

/-- C1 (counterexample): as stated the bounds claim is false — interaction
costs are added to the presence level with no clamp, so a reachable state
(start, then 34 locked-exit interactions at 3 presence each) carries a
presence level of 102, strictly above `MAX_PRESENCE`. -/
theorem presence_exceeds_max_counterexample :
    MAX_PRESENCE < (runOps initGameState
      (GOp.start true :: List.replicate 34 (GOp.interact (some ObjName.door)))).presenceLevel := by
  norm_num [runOps, step, applyOp, handleInteraction, gameTick, startGame, lossCheck,
    endGameState, showMessage, interactionData, initGameState, PRESENCE_INTERACT_COST,
    MAX_PRESENCE, List.replicate]

/-- C1 (amended): along every reachable state the presence level is never
negative; the per-tick update keeps it at most `MAX_PRESENCE`, but the
interaction handler adds its costs unclamped, so the level can exceed
`MAX_PRESENCE` — it stays below `MAX_PRESENCE + 30` (the largest single
cost) because the game-over check ends the session once the level
reaches `MAX_PRESENCE`, and while the session is running the level is
strictly below `MAX_PRESENCE`. -/
theorem presence_level_bounds (s : GState) (h : Reachable s) :
    0 ≤ s.presenceLevel ∧ s.presenceLevel < MAX_PRESENCE + 30 ∧
      (s.isRunning = true → s.presenceLevel < MAX_PRESENCE) := by
  obtain ⟨ops, rfl⟩ := h
  obtain ⟨h0, h1, h2⟩ := runOps_inv ops initGameState (by norm_num [PresenceInv, initGameState])
  refine ⟨h0, ?_, fun hr => ?_⟩
  · simp only [MAX_PRESENCE]
    norm_num
    linarith
  · simp only [MAX_PRESENCE]
    exact h2 hr

/-- C1 (witness): the bounds hold at the initial state, reachable by the
empty trace. -/
theorem presence_level_bounds_witness :
    0 ≤ initGameState.presenceLevel ∧ initGameState.presenceLevel < MAX_PRESENCE + 30 ∧
      (initGameState.isRunning = true → initGameState.presenceLevel < MAX_PRESENCE) :=
  presence_level_bounds initGameState ⟨[], rfl⟩

/-- C2 (confirmed): interacting with the exit while fewer than 3 keys are
found only shows the locked message and adds the interaction presence
cost — the session keeps running, and progression (`keysFound`, the
`examined` latches, `jumpscarePlayed`) is untouched, as the full record
equation shows; with all 3 keys the interaction performs the `endGame`
state update of a Win (session stopped, win modal). -/
theorem exit_gating (s : GState) (h : s.isRunning = true) :
    (s.keysFound ≠ 3 →
      handleInteraction (some .door) s =
        { s with
          message := "The emergency exit needs 3 keys."
          messageColor := "text-red-400"
          presenceLevel := s.presenceLevel + PRESENCE_INTERACT_COST } ∧
      (handleInteraction (some .door) s).isRunning = true) ∧
    (s.keysFound = 3 →
      handleInteraction (some .door) s = endGameState true s ∧
      (handleInteraction (some .door) s).isRunning = false ∧
      (handleInteraction (some .door) s).modalTitle = "ACCESS GRANTED") := by
  constructor
  · intro hk
    constructor
    · simp [handleInteraction, h, interactionData, showMessage, hk]
    · simp [handleInteraction, h, interactionData, showMessage, hk]
  · intro hk
    simp [handleInteraction, h, interactionData, showMessage, hk, endGameState]

/-- C2 (witness): the locked branch evaluated on the freshly started
session (0 keys found). -/
theorem exit_gating_witness :
    handleInteraction (some .door) (startGame true initGameState) =
      { startGame true initGameState with
        message := "The emergency exit needs 3 keys."
        messageColor := "text-red-400"
        presenceLevel := (startGame true initGameState).presenceLevel + PRESENCE_INTERACT_COST } :=
  ((exit_gating (startGame true initGameState) rfl).1 (by decide)).1

/-- C3 (confirmed): on a running session and a non-exit object, the first
interaction sets the object's `examined` latch and increments `keysFound`
by 1 exactly when the record has a key; an interaction on an already
examined object is a pure repeat outcome (the record's repeat message or
the generic fallback, a presence cost of 1, no progression change); and
the latch survives every later operation of the session (every operation
other than `start`). -/
theorem examined_latch (s : GState) (o : ObjName) (h : s.isRunning = true)
    (hex : (interactionData o).isExit = false) :
    (s.examined o = false →
      (handleInteraction (some o) s).examined o = true ∧
      (handleInteraction (some o) s).keysFound =
        s.keysFound + (if (interactionData o).hasKey then 1 else 0)) ∧
    (s.examined o = true →
      handleInteraction (some o) s =
        { s with
          message := (interactionData o).usedMessage.getD "You\x27ve already searched here."
          messageColor := "text-red-400"
          presenceLevel := s.presenceLevel + 1 }) ∧
    (∀ op : GOp, (∀ b : Bool, op ≠ GOp.start b) → s.examined o = true →
      (step s op).examined o = true) := by
  refine ⟨?_, ?_, ?_⟩
  · intro hno
    simp only [handleInteraction, h, hex, hno, Bool.false_eq_true, if_false, showMessage]
    by_cases hk : (interactionData o).hasKey <;>
      by_cases hsc : (interactionData o).scareTrigger && !s.jumpscarePlayed <;>
        simp [hk, hsc]
  · intro hyes
    simp [handleInteraction, h, hex, hyes, showMessage]
  · intro op hop hyes
    cases op with
    | tick delta moved =>
      simp only [step, applyOp, gameTick, lossCheck, endGameState]
      split_ifs <;> simp [hyes]
    | interact t =>
      have key : (handleInteraction t s).examined o = true := by
        cases t with
        | none =>
          simp [handleInteraction, showMessage]
          split_ifs <;> simp [hyes]
        | some o2 =>
          simp only [handleInteraction, showMessage]
          split_ifs <;> simp [endGameState, hyes]
      simp only [step, applyOp, lossCheck, endGameState]
      split_ifs <;> simp [key]
    | start b => exact absurd rfl (hop b)

/-- C3 (witness): first interaction with the desk on a fresh session sets
its latch and banks its key. -/
theorem examined_latch_witness :
    (handleInteraction (some ObjName.desk) (startGame true initGameState)).examined
      ObjName.desk = true ∧
    (handleInteraction (some ObjName.desk) (startGame true initGameState)).keysFound =
      (startGame true initGameState).keysFound +
        (if (interactionData ObjName.desk).hasKey then 1 else 0) :=
  (examined_latch (startGame true initGameState) ObjName.desk rfl rfl).1 rfl

/-- C4 (confirmed): along any trace of operations containing no `start`,
the scare branch (one-time penalty, hiding the mesh, the `playScare`
cue) executes at most once, from any starting state; and once the scare
object is examined, interacting with it again is a pure repeat outcome
with its repeat message. -/
theorem scare_one_shot (s : GState) (ops : List GOp)
    (hops : ∀ op ∈ ops, ∀ b : Bool, op ≠ GOp.start b) :
    countScares s ops ≤ 1 ∧
    (s.examined .distortion = true → s.isRunning = true →
      handleInteraction (some .distortion) s =
        { s with
          message := "It\x27s just a faint residue now."
          messageColor := "text-red-400"
          presenceLevel := s.presenceLevel + 1 }) := by
  constructor
  · induction ops generalizing s with
    | nil => simp [countScares]
    | cons op ops ih =>
      have hrest : ∀ o ∈ ops, ∀ b : Bool, o ≠ GOp.start b :=
        fun o ho => hops o (List.mem_cons_of_mem op ho)
      cases op with
      | tick delta moved => simpa [countScares] using ih (step s _) hrest
      | interact t =>
        by_cases hf : scareFires s t = true
        · have hz := countScares_of_played (step s (GOp.interact t)) ops hrest
            (scareFires_step s t hf)
          simp [countScares, hf, hz]
        · have hf2 : scareFires s t = false := by simpa using hf
          simpa [countScares, hf2] using ih (step s _) hrest
      | start b => exact absurd rfl (hops _ (List.mem_cons_self _ _) b)
  · intro hexam hrun
    simp [handleInteraction, hrun, hexam, interactionData, showMessage]

/-- C4 (witness): five consecutive interactions with the scare object on a
fresh session fire the scare branch at most once. -/
theorem scare_one_shot_witness :
    countScares (startGame true initGameState)
      (List.replicate 5 (GOp.interact (some ObjName.distortion))) ≤ 1 :=
  (scare_one_shot (startGame true initGameState)
    (List.replicate 5 (GOp.interact (some ObjName.distortion)))
    (fun op hop b => by rw [List.eq_of_mem_replicate hop]; simp)).1

/-- C5 (confirmed): the solver is axis-separated — if the tentative X
position collides while the Z position reached from the reverted X is
free, only X is reverted and the move slides along Z (and is not a full
stop when the Z displacement is nonzero); symmetrically, if X is free and
the Z position reached from the applied X collides, only Z is reverted
and the move slides along X. -/
theorem axis_separated_collision {α : Type} [LinearOrderedField α] (px pz dx dz : α)
    (objs : List (Box3 α)) :
    (checkCollisions (px + dx) pz objs = true →
      checkCollisions px (pz + dz) objs = false →
      resolveMove px pz dx dz objs = (px, pz + dz) ∧
      (dz ≠ 0 → resolveMove px pz dx dz objs ≠ (px, pz))) ∧
    (checkCollisions (px + dx) pz objs = false →
      checkCollisions (px + dx) (pz + dz) objs = true →
      resolveMove px pz dx dz objs = (px + dx, pz) ∧
      (dx ≠ 0 → resolveMove px pz dx dz objs ≠ (px, pz))) := by
  constructor
  · intro hx hz
    have heq : resolveMove px pz dx dz objs = (px, pz + dz) := by
      simp [resolveMove, hx, hz]
    refine ⟨heq, fun hdz hC => hdz ?_⟩
    rw [heq] at hC
    have h2 := congrArg Prod.snd hC
    simpa using h2
  · intro hx hz
    have heq : resolveMove px pz dx dz objs = (px + dx, pz) := by
      simp [resolveMove, hx, hz]
    refine ⟨heq, fun hdx hC => hdx ?_⟩
    rw [heq] at hC
    have h2 := congrArg Prod.fst hC
    simpa using h2

/-- C5 (witness): a concrete corner — a block on the +X side stops the X
component of the diagonal move `(3/10, 3/10)` from `(1/2, 0)`, and the
player slides to `(1/2, 3/10)` instead of stopping. -/
theorem axis_separated_collision_witness :
    resolveMove (1/2 : ℚ) 0 (3/10) (3/10) [⟨1, 2, 0, 5, -10, 10⟩] = (1/2, 0 + 3/10) ∧
    ((3/10 : ℚ) ≠ 0 →
      resolveMove (1/2 : ℚ) 0 (3/10) (3/10) [⟨1, 2, 0, 5, -10, 10⟩] ≠ (1/2, 0)) :=
  (axis_separated_collision (1/2) 0 (3/10) (3/10) [⟨1, 2, 0, 5, -10, 10⟩]).1
    (by norm_num [checkCollisions, intersectsBox, playerBox])
    (by norm_num [checkCollisions, intersectsBox, playerBox])

/-- C6 (counterexample): the claim quantifies over every `deltaTime`, but a
large frame gap lets the displacement tunnel past the floor extent: at
the starting position `(0, 5)` (over the floor), yaw 0, the back key held
and `deltaTime = 10`, `updateMovement` moves the player to `(0, 45)`. -/
theorem player_moves_over_floor_counterexample :
    |(0:ℝ)| ≤ 6.4 ∧ |(5:ℝ)| ≤ 6.4 ∧
    updateMovement 0 5 0 ⟨false, false, true, false⟩ 10 (worldBoxes ℝ) = ((0, 45), true) := by
  refine ⟨by norm_num, by norm_num, ?_⟩
  have hkv : keyVelocity (⟨false, false, true, false⟩ : KeyMap) ((4:ℝ) * 10) = (0, 40) := by
    norm_num [keyVelocity]
  have hmov : isMoving ⟨false, false, true, false⟩ = true := rfl
  simp only [updateMovement, hmov, if_true, hkv]
  rw [show ((4:ℝ) * 10) = 40 by norm_num]
  rw [normalizeScale_forward]
  have hyaw : applyYaw 0 0 40 = ((0:ℝ), 40) := by
    simp [applyYaw]
  rw [hyaw]
  have cx : checkCollisions ((0:ℝ) + 0) 5 (worldBoxes ℝ) = true := by
    norm_num
    exact floor_collides 0 5 (by norm_num) (by norm_num)
  have cz : checkCollisions (0:ℝ) (5 + 40) (worldBoxes ℝ) = false := by
    norm_num
    exact no_collision_beyond_floor
  simp only [resolveMove, cx, if_true, cz, if_false]
  norm_num

/-- C6 (amended): every horizontal position whose footprint overlaps the
floor extent collides, so whenever the player is over the floor with
enough margin that both tentative positions still overlap it (the
displacement per axis is at most `4 * deltaTime`), `updateMovement`
leaves the position unchanged while returning `true` exactly when at
least one direction key is held. -/
theorem floor_blocks_movement (px pz yaw : ℝ) (k : KeyMap) (delta : ℝ) (hd : 0 ≤ delta)
    (hx : |px| + 4 * delta ≤ 6.4) (hz : |pz| + 4 * delta ≤ 6.4) :
    updateMovement px pz yaw k delta (worldBoxes ℝ) = ((px, pz), isMoving k) := by
  by_cases hm : isMoving k = true
  · simp only [updateMovement, hm, if_true]
    have hs : (0:ℝ) ≤ 4 * delta := by linarith
    obtain ⟨hdx, hdz⟩ := dir_abs_le yaw (keyVelocity k (4 * delta)).1
      (keyVelocity k (4 * delta)).2 (4 * delta) hs
    have hxp : 0 ≤ |px| := abs_nonneg px
    have hzp : 0 ≤ |pz| := abs_nonneg pz
    set dir := applyYaw yaw (normalizeScale (keyVelocity k (4 * delta)).1
      (keyVelocity k (4 * delta)).2 (4 * delta)).1 (normalizeScale (keyVelocity k (4 * delta)).1
      (keyVelocity k (4 * delta)).2 (4 * delta)).2 with hdir
    have cx : checkCollisions (px + dir.1) pz (worldBoxes ℝ) = true := by
      apply floor_collides
      · calc |px + dir.1| ≤ |px| + |dir.1| := abs_add _ _
          _ ≤ 6.4 := by linarith
      · linarith
    have cz : checkCollisions px (pz + dir.2) (worldBoxes ℝ) = true := by
      apply floor_collides
      · linarith
      · calc |pz + dir.2| ≤ |pz| + |dir.2| := abs_add _ _
          _ ≤ 6.4 := by linarith
    simp only [resolveMove, cx, if_true, cz]
  · simp only [updateMovement, Bool.not_eq_true] at hm ⊢
    simp [hm]

/-- C6 (witness): at the starting position with the forward key held and a
normal 60 fps frame, the player cannot move but the movement cost is
still charged. -/
theorem floor_blocks_movement_witness :
    updateMovement 0 5 0 ⟨true, false, false, false⟩ (1/60) (worldBoxes ℝ) =
      ((0, 5), isMoving ⟨true, false, false, false⟩) :=
  floor_blocks_movement 0 5 0 ⟨true, false, false, false⟩ (1/60)
    (by norm_num) (by norm_num) (by norm_num)

/-- C7 (counterexample): the tick does not compute the spec's single clamp
`clamp(level - decay*dt + moveCost, 0, MAX)`: at level 0, `deltaTime = 1`
and `moved = true` the source clamps the decay at 0 first and then adds
the movement cost, producing `PRESENCE_MOVE_COST` (= 0.005) where the
claimed formula produces 0. -/
theorem tick_clamp_order_counterexample :
    tickPresence 0 1 true = PRESENCE_MOVE_COST ∧ specTickClamp 0 1 true = 0 ∧
    tickPresence 0 1 true ≠ specTickClamp 0 1 true := by
  norm_num [tickPresence, specTickClamp, PRESENCE_DECAY, PRESENCE_MOVE_COST, MAX_PRESENCE,
    max_def, min_def]

/-- C7 (amended): what the tick actually computes is
`min(MAX, max(0, level - decay*dt) + (moved ? moveCost : 0))` — the decay
is clamped at 0 before the movement cost is added — and this value always
lies in `[0, MAX_PRESENCE]`. -/
theorem tick_update_formula (p delta : ℚ) (moved : Bool) :
    tickPresence p delta moved =
      min MAX_PRESENCE (max 0 (p - PRESENCE_DECAY * delta) +
        (if moved then PRESENCE_MOVE_COST else 0)) ∧
    0 ≤ tickPresence p delta moved ∧ tickPresence p delta moved ≤ MAX_PRESENCE := by
  refine ⟨?_, tickPresence_nonneg p delta moved, tickPresence_le p delta moved⟩
  simp only [tickPresence, MAX_PRESENCE, PRESENCE_MOVE_COST]
  split_ifs <;> simp only [min_def] <;> split_ifs <;> linarith

/-- C8 (confirmed): `startGame` (with auth ready) performs the full reset
from any prior state whatsoever — zero keys, zero presence, every
`examined` latch cleared, `jumpscarePlayed` cleared — and starts the
session. -/
theorem start_resets (s : GState) :
    (startGame true s).keysFound = 0 ∧
    (startGame true s).presenceLevel = 0 ∧
    (∀ o : ObjName, (startGame true s).examined o = false) ∧
    (startGame true s).jumpscarePlayed = false ∧
    (startGame true s).isRunning = true := by
  simp [startGame, showMessage]

/-- C9 (code bug): ending a session always raises — `endGame` calls
`audioControllerRef.current.stop()`, but the `AudioController` class
defines no `stop` method (its session-end ramp is `reset`), so the call
is a TypeError for both the Win and the Loss outcome. -/
theorem endGame_raises_type_error (win : Bool) (s : GState) :
    endGame win s =
      Except.error "TypeError: audioControllerRef.current.stop is not a function" := by
  cases win <;> rfl

/-- C10 (confirmed): the three tension-to-audio parameters — ambient-noise
volume, pulse frequency, pulse volume — are each monotone in the
normalized presence on `[0, 1]`. -/
theorem updateTension_monotone (a b : ℚ) (_h0 : 0 ≤ a) (hab : a ≤ b) (_h1 : b ≤ 1) :
    (updateTension a).1 ≤ (updateTension b).1 ∧
    (updateTension a).2.1 ≤ (updateTension b).2.1 ∧
    (updateTension a).2.2 ≤ (updateTension b).2.2 := by
  simp only [updateTension]
  exact ⟨by linarith, by linarith, by linarith⟩

/-- C10 (witness): monotonicity instantiated at the quiet baseline 0 and
the tense ceiling 1. -/
theorem updateTension_monotone_witness :
    (updateTension 0).1 ≤ (updateTension 1).1 ∧
    (updateTension 0).2.1 ≤ (updateTension 1).2.1 ∧
    (updateTension 0).2.2 ≤ (updateTension 1).2.2 :=
  updateTension_monotone 0 1 (by norm_num) (by norm_num) (by norm_num)

end QuietLibrary
